import Mathlib

/-!
Verification development for the `babolivier/scripts` repository: shallow
embeddings of the three utilities (`delete_forgotten_rooms.py`,
`set_display_name_in_matrix_space.py`, `sort_photos.py`) and theorems about
them. Each definition is translated from the Python source; line numbers in
doc comments refer to the corresponding source file.
-/

namespace DeleteRooms

/-- One entry of the `rooms` array returned by the admin listing endpoint
(`delete_forgotten_rooms.py`, lines 56-66): the script reads the fields
`room_id` and `joined_local_members`. -/
structure Room where
  room_id : String
  joined_local_members : Nat
deriving Repr, DecidableEq

/-- One response to a deletion-status poll (`GET .../delete_status/...`,
line 108): whether the HTTP status was a success (`res.ok`) and the JSON
body, modelled as an association list of string fields. -/
structure PollResponse where
  ok : Bool
  body : List (String × String)
deriving Repr, DecidableEq

/-- Python dict subscript `body[key]` on a parsed JSON object: `some` the
value, or `none` when the key is absent (Python raises `KeyError`). -/
def getField (body : List (String × String)) (key : String) : Option String :=
  (body.find? (fun kv => kv.1 == key)).map (fun kv => kv.2)

/-- Outcome of the status-polling `while` loop (lines 103-118) on a given
sequence of poll responses. -/
inductive PollResult where
  /-- The loop exited normally: `last_res_json["status"]` was read and was
  not `"purging"`. -/
  | done (status : String)
  /-- Reading `last_res_json["status"]` raised `KeyError` (the key is absent
  from the body), aborting the whole process. -/
  | keyError
  /-- The supplied responses were exhausted while the status was still
  `"purging"`: the loop is still running. -/
  | pending
deriving Repr, DecidableEq

/-- The status-polling loop of `delete_forgotten_rooms.py`, lines 103-118,
consuming one response per iteration. Note the translation of lines 110-118:
when `res.ok` is false the script only prints a message - there is no
`continue` - so `last_res_json = res.json()` and
`status = last_res_json["status"]` run on the error body as well. The loop
therefore never branches on `r.ok` at all; it always reads `"status"` from
the body, raising `KeyError` when the field is absent. -/
def pollLoop : List PollResponse → PollResult
  | [] => .pending
  | r :: rest =>
    match getField r.body "status" with
    | none => .keyError
    | some st => if st == "purging" then pollLoop rest else .done st

/-- The server's behaviour for the `DELETE .../v2/rooms/{room_id}` request
issued at line 77: either a non-success response (`res.ok` false), or a
success carrying a `delete_id` together with the sequence of poll responses
the status endpoint will subsequently return for that deletion. -/
inductive DelResponse where
  | notOk
  | ok (delId : String) (polls : List PollResponse)

/-- What processing one listing page (the `for room in rooms` loop, lines
62-124) produces: the final value of `deleted_rooms`, the rooms for which a
`DELETE` request was actually issued (in order), and whether the loop ran to
the end of the page (`completed = false` when a poll aborted the process
with `KeyError` or never terminated). -/
structure PageResult where
  count : Nat
  deleteReqs : List String
  completed : Bool
deriving Repr, DecidableEq

/-- The per-room deletion loop (`delete_forgotten_rooms.py`, lines 62-124).
`oracle` gives the server's response to the `DELETE` request for each room
id. A room with a non-zero `joined_local_members` is skipped (lines 66-68).
Otherwise `deleted_rooms` is incremented (line 74) before the `DELETE`
request is sent (line 77); a failed `DELETE` just moves on to the next room
(lines 78-87); a successful one enters the polling loop, and the rest of the
page is only processed if that loop exits normally. -/
def processRooms (oracle : String → DelResponse) : List Room → PageResult
  | [] => { count := 0, deleteReqs := [], completed := true }
  | room :: rest =>
    if room.joined_local_members != 0 then
      processRooms oracle rest
    else
      match oracle room.room_id with
      | .notOk =>
        let r := processRooms oracle rest
        { count := r.count + 1, deleteReqs := room.room_id :: r.deleteReqs,
          completed := r.completed }
      | .ok _ polls =>
        match pollLoop polls with
        | .done _ =>
          let r := processRooms oracle rest
          { count := r.count + 1, deleteReqs := room.room_id :: r.deleteReqs,
            completed := r.completed }
        | _ => { count := 1, deleteReqs := [room.room_id], completed := false }

/-- Predicate: the poll responses scripted for this room let the polling
loop exit normally (it neither raises `KeyError` nor stays `"purging"`
forever). Rooms whose `DELETE` request fails never poll, so they are always
survivable. -/
def survivable (oracle : String → DelResponse) (room : Room) : Bool :=
  match oracle room.room_id with
  | .notOk => true
  | .ok _ polls =>
    match pollLoop polls with
    | .done _ => true
    | _ => false

/-- The outer batch loop of `delete_forgotten_rooms.py`, lines 43-126:
`deleted_rooms` starts equal to `BATCH_SIZE` and the loop body runs while
`deleted_rooms == BATCH_SIZE`. `pages i` is the server's response to the
`i`-th listing request (`.error` models a non-success response, on which the
script prints and exits with status 1, lines 49-54). The result is the list
of page indices for which a listing request was issued, with `fuel` bounding
the number of iterations observed. -/
def listedPages (oracle : String → DelResponse) (pages : Nat → Except Unit (List Room))
    (batchSize : Nat) : Nat → Nat → Nat → List Nat
  | 0, _, _ => []
  | fuel + 1, deleted, i =>
    if deleted = batchSize then
      match pages i with
      | .error _ => [i]
      | .ok rooms =>
        let res := processRooms oracle rooms
        if res.completed then i :: listedPages oracle pages batchSize fuel res.count (i + 1)
        else [i]
    else []

/-- The full run: the initial `deleted_rooms = BATCH_SIZE` (line 43) makes
the first listing request unconditional. -/
def runListings (oracle : String → DelResponse) (pages : Nat → Except Unit (List Room))
    (batchSize fuel : Nat) : List Nat :=
  listedPages oracle pages batchSize fuel batchSize 0

/-- Example server behaviour: the `DELETE` for room `!a:hs` fails with a
non-success response; deletions of all other rooms succeed and report
`complete` on the first poll. -/
def exOracle : String → DelResponse := fun roomId =>
  if roomId == "!a:hs" then .notOk
  else .ok "delid1" [{ ok := true, body := [("status", "complete")] }]

/-- Example listing page: two rooms with no joined local members (the first
of which will fail its `DELETE`), one with three. -/
def exPage : List Room :=
  [{ room_id := "!a:hs", joined_local_members := 0 },
   { room_id := "!b:hs", joined_local_members := 0 },
   { room_id := "!c:hs", joined_local_members := 3 }]

/-- Example listing endpoint: every page holds a single zero-member room. -/
def exPages : Nat → Except Unit (List Room) := fun _ =>
  .ok [{ room_id := "!d:hs", joined_local_members := 0 }]

end DeleteRooms

namespace DisplayName

/-- A JSON value as far as `set_display_name_in_matrix_space.py` inspects
one: a string leaf or an object. -/
inductive Json where
  | str (s : String)
  | obj (fields : List (String × Json))

/-- Python subscript `j[key]`: `some` the value when `j` is an object with
that key; `none` when the key is absent (`KeyError`) or `j` is not an object
(`TypeError`) - both abort unless caught. -/
def Json.get (j : Json) (key : String) : Option Json :=
  match j with
  | .str _ => none
  | .obj fields => (fields.find? (fun kv => kv.1 == key)).map (fun kv => kv.2)

/-- The structured error `_req` raises on a non-200 response
(`set_display_name_in_matrix_space.py`, lines 11-16 and 187-188). -/
structure HttpErr where
  code : Nat
  content : String
  url : String

/-- An uncaught lookup failure (`KeyError` or `TypeError`) escaping
`Client.init`: the process aborts. -/
inductive InitErr where
  | lookupError
deriving Repr, DecidableEq

/-- The well-known resolution of `Client.init`, lines 37-41. `wellKnown` is
the outcome of `_req("GET", "https://<domain>/.well-known/matrix/client")`:
`.error` when it raised `HttpError` (non-200). The `try` block catches only
`HttpError`, replacing the base URL by `https://<domain>`; when the request
returns 200 but `resp["m.homeserver"]["base_url"]` fails to resolve, the
lookup error propagates and the program aborts. -/
def initBaseUrl (domain : String) (wellKnown : Except HttpErr Json) : Except InitErr Json :=
  match wellKnown with
  | .error _ => .ok (.str ("https://" ++ domain))
  | .ok resp =>
    match resp.get "m.homeserver" with
    | none => .error .lookupError
    | some hs =>
      match hs.get "base_url" with
      | none => .error .lookupError
      | some v => .ok v

/-- Python's `str.lower()` on the strings this script compares: each
character lowercased. (Python's case folding and this one agree on whether
the result is the one-letter string `"y"`: only `"y"` and `"Y"` lowercase
to it under either.) -/
def strLower (s : String) : String :=
  String.mk (s.data.map Char.toLower)

/-- The confirmation gate of `_main`, line 228:
`choice == "" or choice.lower() == "y"`. -/
def confirms (choice : String) : Bool :=
  choice == "" || strLower choice == "y"

/-- The URL of the membership-state `PUT` issued by `change_display_name`
for one room (line 154). -/
def putUrl (userId roomId : String) : String :=
  "/_matrix/client/v3/rooms/" ++ roomId ++ "/state/m.room.member/" ++ userId

/-- The state-change (`PUT`) requests `_main` issues after the prompt
(lines 227-229): `change_display_name` runs - one `PUT` per room of
`rooms_in_space`, lines 149-156 - only when the confirmation gate passes;
otherwise `_main` returns with no request issued. -/
def mainPuts (roomsInSpace : List (String × String)) (choice : String)
    (userId : String) : List String :=
  if confirms choice then roomsInSpace.map (fun rm => putUrl userId rm.1) else []

/-- The room classifier `_is_dm_in_space` (lines 77-91). `joined` is the
`joined` object of the room's own `/joined_members` response: a list of
(user id, optional `display_name` field) pairs; `rosterKeys` the keys of the
`members` roster built from the space's `/joined_members` response. The
Python loop returns `False` on the first member that is neither the acting
user nor a roster key, and `True` otherwise. -/
def isDmInSpace (userId : String) (rosterKeys : List String)
    (joined : List (String × Option String)) : Bool :=
  if joined.length != 2 then false
  else joined.all (fun u => u.1 == userId || rosterKeys.contains u.1)

/-- The helper `_correspondant_display_name` (lines 93-103): the first
joined user whose id differs from the acting user's, mapped to its
`display_name` field. The outer `none` is Python's implicit `None` return
when no such user exists; an inner `none` means the entry has no
`display_name` key, on which `value["display_name"]` raises `KeyError`. -/
def correspondantDisplayName (userId : String)
    (joined : List (String × Option String)) : Option (Option String) :=
  (joined.find? (fun u => u.1 != userId)).map (fun u => u.2)

/-- What `_dm_rooms_in_space` does with one joined room not already in
`rooms_in_space` (lines 120-124). -/
inductive DmStep where
  /-- The room is not classified as a DM: nothing recorded. -/
  | notDm
  /-- The room is recorded in `rooms_in_space` under this name. -/
  | recorded (name : String)
  /-- The correspondant's entry lacks `display_name`: `KeyError`, aborting
  the process. -/
  | crashed
deriving Repr, DecidableEq

/-- The per-room classification step of `_dm_rooms_in_space` (lines
120-124): when `_is_dm_in_space` holds, the room is recorded under
`"DM with " + _correspondant_display_name(joined)`. Python's f-string
renders an implicit `None` return as the text `"None"`. -/
def classifyRoom (userId : String) (rosterKeys : List String)
    (joined : List (String × Option String)) : DmStep :=
  if isDmInSpace userId rosterKeys joined then
    match correspondantDisplayName userId joined with
    | some (some d) => .recorded ("DM with " ++ d)
    | some none => .crashed
    | none => .recorded "DM with None"
  else .notDm

end DisplayName

namespace SortPhotos

/-- The characters of the regex character class `[IMG|PANO]`
(`sort_photos.py`, line 19): any of the letters I, M, G, P, A, N, O or the
bar character - the pattern is a character class, not an alternation of the
words IMG and PANO. -/
def classChar (c : Char) : Bool :=
  ['I', 'M', 'G', '|', 'P', 'A', 'N', 'O'].contains c

/-- The match attempt `re.match("^[IMG|PANO]+_([0-9]{8})_([0-9]{6})", file)`
at line 45, returning group 1 (the 8-digit date group) on a match. Since
neither an underscore nor a digit belongs to the class, the greedy run of
class characters is exactly the maximal prefix run, and no backtracking can
reposition it; `re.match` anchors at the start of the name and leaves its
tail unconstrained. -/
def matchName (s : String) : Option String :=
  let cs := s.data
  let run := cs.takeWhile classChar
  let rest := cs.dropWhile classChar
  if run.length == 0 then none
  else
    match rest with
    | '_' :: r1 =>
      let date := r1.take 8
      let r2 := r1.drop 8
      if date.length == 8 && date.all Char.isDigit then
        match r2 with
        | '_' :: r3 =>
          let tm := r3.take 6
          if tm.length == 6 && tm.all Char.isDigit then some (String.mk date) else none
        | _ => none
      else none
    | _ => none

/-- A calendar date as `datetime.strptime(..., "%Y%m%d")` produces one. -/
structure Date where
  year : Nat
  month : Nat
  day : Nat
deriving Repr, DecidableEq

/-- Gregorian leap-year rule, as implemented by Python's `datetime`. -/
def isLeapYear (y : Nat) : Bool :=
  (y % 4 == 0 && y % 100 != 0) || y % 400 == 0

/-- Days in a month, as validated by Python's `datetime`. -/
def daysInMonth (y m : Nat) : Nat :=
  if m == 2 then (if isLeapYear y then 29 else 28)
  else if [4, 6, 9, 11].contains m then 30 else 31

/-- Numeric value of a run of decimal digits. -/
def digitsToNat (cs : List Char) : Nat :=
  cs.foldl (fun n c => n * 10 + (c.toNat - '0'.toNat)) 0

/-- The call `datetime.strptime(match.group(1), "%Y%m%d")` at line 48 on an
8-digit group: `%Y` consumes exactly four digits, `%m` and `%d` two each,
and the constructor validates the result (`datetime.MINYEAR = 1`,
`MAXYEAR = 9999`, month 1-12, day within the month) - `none` models the
`ValueError` raised on an invalid calendar date. -/
def strptimeYmd (g : String) : Option Date :=
  let cs := g.data
  if cs.length == 8 && cs.all Char.isDigit then
    let y := digitsToNat (cs.take 4)
    let m := digitsToNat ((cs.drop 4).take 2)
    let d := digitsToNat ((cs.drop 4).drop 2)
    if 1 ≤ y && y ≤ 9999 && 1 ≤ m && m ≤ 12 && 1 ≤ d && d ≤ daysInMonth y m then
      some { year := y, month := m, day := d }
    else none
  else none

/-- Two-digit zero-padded rendering, as `%m` formats a month. -/
def pad2 (n : Nat) : String :=
  if n < 10 then "0" ++ toString n else toString n

/-- The call `date.strftime("%Y/%m")` at line 53, as CPython renders it on
glibc: the year without padding, the month zero-padded to two digits. -/
def strftimeYm (d : Date) : String :=
  toString d.year ++ "/" ++ pad2 d.month

/-- Python's `os.path.join(a, b)` for the shapes this script produces: `b`
replaces `a` when absolute, otherwise the parts are glued with exactly one
separator. -/
def osPathJoin (a b : String) : String :=
  if b.data.head? == some '/' then b
  else if a == "" then b
  else if a.data.getLast? == some '/' then a ++ b
  else a ++ "/" ++ b

/-- The `files_to_move` dictionary (line 41): insertion-ordered, keyed by
destination directory path, each key holding the file names appended to it. -/
abbrev Buckets := List (String × List String)

/-- Lines 57-59: append `f` to the bucket of `key`, creating the bucket at
the end when absent (Python dict insertion order). -/
def bucketAdd (acc : Buckets) (key : String) (f : String) : Buckets :=
  match acc with
  | [] => [(key, [f])]
  | (k, fs) :: rest =>
    if k == key then (k, fs ++ [f]) :: rest else (k, fs) :: bucketAdd rest key f

/-- Total number of file names recorded across all buckets. -/
def sumBuckets (b : Buckets) : Nat :=
  (b.map (fun kv => kv.2.length)).sum

/-- An uncaught exception aborting the run. -/
inductive ScanErr where
  /-- `datetime.strptime` raised `ValueError` on this 8-digit group
  (line 48). -/
  | valueError (group : String)
  /-- `os.path.join(None, ...)` raised `TypeError`: `--path` was omitted, so
  `args.path` is `None` (lines 54 and 74). -/
  | typeError
deriving Repr, DecidableEq

/-- The scan loop of `sort_photos.py`, lines 43-62, carried out on the
listed names with the accumulated `files_to_move` dictionary and the running
`n_files` count (which is decremented on every name that fails to match).
`pathArg` is `args.path` (`none` when `--path` was omitted). -/
def scanLoop (pathArg : Option String) :
    List String → Buckets → Nat → Except ScanErr (Buckets × Nat)
  | [], acc, n => .ok (acc, n)
  | f :: rest, acc, n =>
    match matchName f with
    | some g =>
      match strptimeYmd g with
      | none => .error (.valueError g)
      | some date =>
        match pathArg with
        | none => .error .typeError
        | some p =>
          scanLoop pathArg rest (bucketAdd acc (osPathJoin p (strftimeYm date)) f) n
    | none => scanLoop pathArg rest acc (n - 1)

/-- The scan phase: `n_files` starts at the number of listed names
(line 37) and the loop runs over all of them before anything is moved. -/
def scan (pathArg : Option String) (files : List String) : Except ScanErr (Buckets × Nat) :=
  scanLoop pathArg files [] files.length

/-- The inner move loop (lines 72-78) for one destination directory:
each file yields a `shutil.move(src, dst)` with
`src = os.path.join(args.path, file)` and `dst = os.path.join(dir, file)`;
a `None` path raises `TypeError` at the join. -/
def moveFiles (pathArg : Option String) (dir : String) :
    List String → Except ScanErr (List (String × String))
  | [] => .ok []
  | f :: fs =>
    match pathArg with
    | none => .error .typeError
    | some p => do
      let rest ← moveFiles pathArg dir fs
      .ok ((osPathJoin p f, osPathJoin dir f) :: rest)

/-- The move phase (lines 67-78): the (src, dst) pairs moved, bucket by
bucket. Directory creation (line 70) has no observable effect modelled
here. -/
def movesOf (pathArg : Option String) : Buckets → Except ScanErr (List (String × String))
  | [] => .ok []
  | (dir, fs) :: rest => do
    let ms ← moveFiles pathArg dir fs
    let more ← movesOf pathArg rest
    .ok (ms ++ more)

/-- The directories visible to the run: the (already resolved) current
working directory and the listable directories with their entries. -/
structure Fs where
  cwd : String
  dirs : List (String × List String)

/-- Entries of directory `p`, or `none` when it cannot be listed. -/
def lookupDir (fs : Fs) (p : String) : Option (List String) :=
  (fs.dirs.find? (fun kv => kv.1 == p)).map (fun kv => kv.2)

/-- Failure of the initial listing (line 36): `os.listdir` raised. -/
inductive OsErr where
  | listdirFailed
deriving Repr, DecidableEq

/-- The call `os.listdir(args.path)` at line 36. CPython treats a `None`
path exactly like the default `"."`: `os.listdir(None)` lists the current
working directory rather than raising, so an omitted `--path` resolves to
the cwd here. -/
def listdir (pathArg : Option String) (fs : Fs) : Except OsErr (List String) :=
  let p := match pathArg with
    | none => fs.cwd
    | some q => q
  match lookupDir fs p with
  | some entries => .ok entries
  | none => .error .listdirFailed

/-- Where a run of `sort_photos.py` aborted, when it did. -/
inductive RunErr where
  | listing (e : OsErr)
  | scanFailed (e : ScanErr)
  | moveFailed (e : ScanErr)
deriving Repr, DecidableEq

/-- The observable outcome of a run: whether the initial listing succeeded,
the count printed by line 64 (`none` when the run aborted before it), the
moves performed, and the uncaught failure if any. -/
structure RunResult where
  listed : Bool
  printedCount : Option Nat
  moved : List (String × String)
  failure : Option RunErr
deriving Repr, DecidableEq

/-- Lines 36-81 with the directory listing already in hand: scan every
entry, print the count, then move. The scan loop runs to completion (or
aborts the run) before any file is moved. -/
def runOnFiles (pathArg : Option String) (files : List String) : RunResult :=
  match scan pathArg files with
  | .error e =>
    { listed := true, printedCount := none, moved := [], failure := some (.scanFailed e) }
  | .ok (buckets, n) =>
    match movesOf pathArg buckets with
    | .error e =>
      { listed := true, printedCount := some n, moved := [], failure := some (.moveFailed e) }
    | .ok ms =>
      { listed := true, printedCount := some n, moved := ms, failure := none }

/-- A whole run of `sort_photos.py` against `fs`, starting from the
`os.listdir` call at line 36. -/
def run (pathArg : Option String) (fs : Fs) : RunResult :=
  match listdir pathArg fs with
  | .error e =>
    { listed := false, printedCount := none, moved := [], failure := some (.listing e) }
  | .ok files => runOnFiles pathArg files

end SortPhotos

/-!
Theorems settling the claims. Helper lemmas come first, then one theorem per
claim (plus its witness or counterexample where called for).
-/

/-- C1: the claim says a failed deletion-status poll is always retried and
never aborts the process. The code disagrees with its own comment (line 109,
"In case of a failure, simply retry."): after printing the failure it still
executes `status = res.json()["status"]`, so a non-success poll response
whose JSON body carries no "status" field - the shape of a Synapse error
body - raises an uncaught `KeyError` and aborts the process instead of
retrying. This theorem evaluates the polling loop at that failing input. -/
theorem C1_failed_poll_aborts :
    DeleteRooms.pollLoop
      [{ ok := false,
         body := [("errcode", "M_UNKNOWN"), ("error", "Internal server error")] }] =
      DeleteRooms.PollResult.keyError := rfl

/-- C2 counterexample: the claim says every response beginning with "y" or
"Y" proceeds with the update pass. The input "yes" begins with "y", yet with
a non-empty room list no PUT request is issued, because line 228 compares
`choice.lower()` to the exact string "y". -/
theorem C2_counterexample :
    "yes".data.head? = some 'y' ∧
    DisplayName.mainPuts [("!r:hs", "Room")] "yes" "@u:hs" = [] := by
  decide

/-- C2 (amended): an empty response, or a response whose lowercased form is
exactly "y" (i.e. exactly "y" or "Y"), causes the display-name update pass
to run - one PUT per identified room; any other response causes the program
to exit with no PUT issued at all. -/
theorem C2_confirmation_gate (rooms : List (String × String)) (choice userId : String)
    (h : rooms ≠ []) :
    (DisplayName.mainPuts rooms choice userId ≠ [] ↔
      (choice = "" ∨ DisplayName.strLower choice = "y")) ∧
    (DisplayName.mainPuts rooms choice userId = [] ∨
      DisplayName.mainPuts rooms choice userId =
        rooms.map (fun rm => DisplayName.putUrl userId rm.1)) := by
  unfold DisplayName.mainPuts
  by_cases hc : DisplayName.confirms choice = true
  · have hd : choice = "" ∨ DisplayName.strLower choice = "y" := by
      simpa [DisplayName.confirms] using hc
    rw [if_pos hc]
    exact ⟨⟨fun _ => hd, fun _ => by simpa using h⟩, Or.inr rfl⟩
  · have hd : ¬ (choice = "" ∨ DisplayName.strLower choice = "y") := by
      simpa [DisplayName.confirms] using hc
    rw [if_neg hc]
    exact ⟨⟨fun hne => absurd rfl hne, fun hyes => absurd hyes hd⟩, Or.inl rfl⟩

/-- C2 witness: the gate evaluated on the concrete input "no" with one room
to update: no PUT is issued. -/
theorem C2_confirmation_gate_witness :
    (DisplayName.mainPuts [("!r:hs", "Room")] "no" "@u:hs" ≠ [] ↔
      ("no" = "" ∨ DisplayName.strLower "no" = "y")) ∧
    (DisplayName.mainPuts [("!r:hs", "Room")] "no" "@u:hs" = [] ∨
      DisplayName.mainPuts [("!r:hs", "Room")] "no" "@u:hs" =
        [("!r:hs", "Room")].map (fun rm => DisplayName.putUrl "@u:hs" rm.1)) :=
  C2_confirmation_gate [("!r:hs", "Room")] "no" "@u:hs" (by decide)

/-- C10: the fallback of the base URL to `https://<domain>` happens exactly
when the well-known request raised the structured HTTP error; when the
request returned 200 but the body lacks "m.homeserver" or its "base_url",
the lookup error is not caught and initialization aborts instead of falling
back. -/
theorem C10_wellknown_fallback (domain : String) :
    (∀ e : DisplayName.HttpErr,
      DisplayName.initBaseUrl domain (.error e) =
        .ok (.str ("https://" ++ domain))) ∧
    (∀ resp : DisplayName.Json, resp.get "m.homeserver" = none →
      DisplayName.initBaseUrl domain (.ok resp) = .error .lookupError) ∧
    (∀ resp hs : DisplayName.Json, resp.get "m.homeserver" = some hs →
      hs.get "base_url" = none →
      DisplayName.initBaseUrl domain (.ok resp) = .error .lookupError) := by
  refine ⟨fun e => rfl, fun resp h => ?_, fun resp hs h1 h2 => ?_⟩
  · simp [DisplayName.initBaseUrl, h]
  · simp [DisplayName.initBaseUrl, h1, h2]

/-- C7: a room (not already in the space map) is classified as a DM exactly
when its joined-members listing has two members and every member other than
the acting user is in the space roster; a qualifying room is recorded as
"DM with" followed by the correspondent's display name as reported by the
room's own joined-members response. In particular a room with three or more
members, or with two members where the other is not a space member, is
never classified as a DM. -/
theorem C7_dm_classification (userId : String) (roster : List String)
    (joined : List (String × Option String)) :
    (DisplayName.isDmInSpace userId roster joined = true ↔
      (joined.length = 2 ∧ ∀ m ∈ joined, m.1 ≠ userId → m.1 ∈ roster)) ∧
    (∀ c d, DisplayName.isDmInSpace userId roster joined = true →
      joined.find? (fun u => u.1 != userId) = some (c, some d) →
      DisplayName.classifyRoom userId roster joined =
        .recorded ("DM with " ++ d)) := by
  constructor
  · unfold DisplayName.isDmInSpace
    by_cases hl : joined.length = 2
    · have hb : (joined.length != 2) = false := by simp [hl]
      rw [hb]
      simp only [Bool.false_eq_true, if_false]
      rw [List.all_eq_true]
      constructor
      · intro hall
        refine ⟨hl, fun m hm hne => ?_⟩
        have h2 : (m.1 == userId || roster.contains m.1) = true := hall m hm
        rcases Bool.or_eq_true_iff.mp h2 with h1 | h1
        · exact absurd (by simpa using h1) hne
        · exact List.elem_iff.mp h1
      · rintro ⟨-, hforall⟩ m hm
        by_cases he : m.1 = userId
        · simp [he]
        · exact Bool.or_eq_true_iff.mpr (Or.inr (List.elem_iff.mpr (hforall m hm he)))
    · have hb : (joined.length != 2) = true := by simpa using hl
      simp [hb, hl]
  · intro c d hdm hfind
    simp [DisplayName.classifyRoom, hdm, DisplayName.correspondantDisplayName, hfind]

/-- C5: the deletion tally counts exactly the rooms that received a
`DELETE` request, and every room that received one was listed with exactly
zero joined local members - a room with a non-zero count is skipped, never
receives a deletion request, and never counts toward the tally. -/
theorem C5_nonzero_never_deleted (oracle : String → DeleteRooms.DelResponse)
    (page : List DeleteRooms.Room) :
    (DeleteRooms.processRooms oracle page).count =
      (DeleteRooms.processRooms oracle page).deleteReqs.length ∧
    ∀ id ∈ (DeleteRooms.processRooms oracle page).deleteReqs,
      ∃ r, r ∈ page ∧ r.room_id = id ∧ r.joined_local_members = 0 := by
  induction page with
  | nil => simp [DeleteRooms.processRooms]
  | cons room rest ih =>
    by_cases hz : room.joined_local_members = 0
    · have hb : (room.joined_local_members != 0) = false := by simp [hz]
      rcases hor : oracle room.room_id with _ | ⟨did, polls⟩
      · simp only [DeleteRooms.processRooms, hb, Bool.false_eq_true, if_false, hor]
        refine ⟨by simp [ih.1], ?_⟩
        intro id hid
        rcases List.mem_cons.mp hid with hid | hid
        · exact ⟨room, List.mem_cons_self room rest, hid.symm, hz⟩
        · rcases ih.2 id hid with ⟨r, hr, hrid, hrz⟩
          exact ⟨r, List.mem_cons_of_mem room hr, hrid, hrz⟩
      · rcases hpl : DeleteRooms.pollLoop polls with st | _ | _
        all_goals
          simp only [DeleteRooms.processRooms, hb, Bool.false_eq_true, if_false, hor, hpl]
        · refine ⟨by simp [ih.1], ?_⟩
          intro id hid
          rcases List.mem_cons.mp hid with hid | hid
          · exact ⟨room, List.mem_cons_self room rest, hid.symm, hz⟩
          · rcases ih.2 id hid with ⟨r, hr, hrid, hrz⟩
            exact ⟨r, List.mem_cons_of_mem room hr, hrid, hrz⟩
        all_goals
          refine ⟨by simp, ?_⟩
          intro id hid
          rcases List.mem_cons.mp hid with hid | hid
          · exact ⟨room, List.mem_cons_self room rest, hid.symm, hz⟩
          · simp at hid
    · have hb : (room.joined_local_members != 0) = true := by simpa using hz
      simp only [DeleteRooms.processRooms, hb, if_true]
      refine ⟨ih.1, ?_⟩
      intro id hid
      rcases ih.2 id hid with ⟨r, hr, hrid, hrz⟩
      exact ⟨r, List.mem_cons_of_mem room hr, hrid, hrz⟩

/-- C4: whenever every polled deletion on the page terminates, the page's
deletion tally equals the number of listed rooms with zero joined local
members, and each of those rooms received a `DELETE` request - the counter
is incremented before the request is attempted, so a room whose `DELETE`
returns non-success (any room the oracle answers with a failure) still
counts toward the tally used by the loop-continuation check. -/
theorem C4_failed_delete_still_counts (oracle : String → DeleteRooms.DelResponse)
    (page : List DeleteRooms.Room)
    (h : ∀ r ∈ page, r.joined_local_members = 0 →
      DeleteRooms.survivable oracle r = true) :
    (DeleteRooms.processRooms oracle page).count =
      (page.filter (fun r => r.joined_local_members == 0)).length ∧
    (DeleteRooms.processRooms oracle page).deleteReqs =
      (page.filter (fun r => r.joined_local_members == 0)).map
        DeleteRooms.Room.room_id := by
  induction page with
  | nil => simp [DeleteRooms.processRooms]
  | cons room rest ih =>
    have hrest : ∀ r ∈ rest, r.joined_local_members = 0 →
        DeleteRooms.survivable oracle r = true :=
      fun r hr => h r (List.mem_cons_of_mem room hr)
    by_cases hz : room.joined_local_members = 0
    · have hb : (room.joined_local_members != 0) = false := by simp [hz]
      have hf : (room.joined_local_members == 0) = true := by simp [hz]
      have hs := h room (List.mem_cons_self room rest) hz
      rcases hor : oracle room.room_id with _ | ⟨did, polls⟩
      · simp only [DeleteRooms.processRooms, hb, Bool.false_eq_true, if_false, hor,
          List.filter_cons, hf, if_true]
        exact ⟨by simp [(ih hrest).1], by simp [(ih hrest).2]⟩
      · rcases hpl : DeleteRooms.pollLoop polls with st | _ | _
        · simp only [DeleteRooms.processRooms, hb, Bool.false_eq_true, if_false, hor,
            hpl, List.filter_cons, hf, if_true]
          exact ⟨by simp [(ih hrest).1], by simp [(ih hrest).2]⟩
        · rw [DeleteRooms.survivable, hor] at hs
          simp [hpl] at hs
        · rw [DeleteRooms.survivable, hor] at hs
          simp [hpl] at hs
    · have hb : (room.joined_local_members != 0) = true := by simpa using hz
      have hf : (room.joined_local_members == 0) = false := by simpa using hz
      simp only [DeleteRooms.processRooms, hb, if_true, List.filter_cons, hf,
        Bool.false_eq_true, if_false]
      exact ih hrest

/-- C4 witness: the example page holds two zero-member rooms (the first of
which fails its `DELETE`) and one three-member room; both zero-member rooms
count and both received a request. -/
theorem C4_failed_delete_still_counts_witness :
    (DeleteRooms.processRooms DeleteRooms.exOracle DeleteRooms.exPage).count =
      (DeleteRooms.exPage.filter (fun r => r.joined_local_members == 0)).length ∧
    (DeleteRooms.processRooms DeleteRooms.exOracle DeleteRooms.exPage).deleteReqs =
      (DeleteRooms.exPage.filter (fun r => r.joined_local_members == 0)).map
        DeleteRooms.Room.room_id :=
  C4_failed_delete_still_counts DeleteRooms.exOracle DeleteRooms.exPage (by decide)

/-- Any page index that the batch loop reached was entered with a deletion
tally equal to the batch size. -/
theorem listedPages_entered_at_batch (oracle : String → DeleteRooms.DelResponse)
    (pages : Nat → Except Unit (List DeleteRooms.Room)) (batchSize fuel d i m : Nat)
    (hm : m ∈ DeleteRooms.listedPages oracle pages batchSize fuel d i) :
    d = batchSize := by
  cases fuel with
  | zero => simp [DeleteRooms.listedPages] at hm
  | succ fuel =>
    by_cases hd : d = batchSize
    · exact hd
    · rw [DeleteRooms.listedPages, if_neg hd] at hm
      simp at hm

/-- Any page index the batch loop fetched is either the starting index or
follows a page that was fetched, fully processed, and yielded a deletion
tally equal to the batch size. -/
theorem listedPages_mem (oracle : String → DeleteRooms.DelResponse)
    (pages : Nat → Except Unit (List DeleteRooms.Room)) (batchSize : Nat) :
    ∀ fuel d i m, m ∈ DeleteRooms.listedPages oracle pages batchSize fuel d i →
      m = i ∨ (i < m ∧ ∃ rooms, pages (m - 1) = .ok rooms ∧
        (DeleteRooms.processRooms oracle rooms).count = batchSize) := by
  intro fuel
  induction fuel with
  | zero =>
    intro d i m hm
    simp [DeleteRooms.listedPages] at hm
  | succ fuel ih =>
    intro d i m hm
    rw [DeleteRooms.listedPages] at hm
    by_cases hd : d = batchSize
    · rw [if_pos hd] at hm
      rcases hp : pages i with e | rooms
      · rw [hp] at hm
        simp at hm
        exact Or.inl hm
      · rw [hp] at hm
        by_cases hc : (DeleteRooms.processRooms oracle rooms).completed = true
        · simp only [hc, if_true] at hm
          rcases List.mem_cons.mp hm with hmi | hmt
          · exact Or.inl hmi
          · have hbatch := listedPages_entered_at_batch oracle pages batchSize fuel
              (DeleteRooms.processRooms oracle rooms).count (i + 1) m hmt
            rcases ih _ _ _ hmt with hm1 | ⟨hlt, P⟩
            · refine Or.inr ⟨by omega, rooms, ?_, hbatch⟩
              have : m - 1 = i := by omega
              rw [this]
              exact hp
            · exact Or.inr ⟨by omega, P⟩
        · simp only [hc, Bool.false_eq_true, if_false] at hm
          simp at hm
          exact Or.inl hm
    · rw [if_neg hd] at hm
      simp at hm

/-- C8: the batch loop repeats the page fetch only while the just-completed
page's deletion tally equals the batch size: if processing page N yields
fewer deletions than the batch size, no listing request is ever issued for
page N + 1. -/
theorem C8_short_page_stops (oracle : String → DeleteRooms.DelResponse)
    (pages : Nat → Except Unit (List DeleteRooms.Room)) (batchSize fuel N : Nat)
    (h : ∀ rooms, pages N = .ok rooms →
      (DeleteRooms.processRooms oracle rooms).count < batchSize) :
    N + 1 ∉ DeleteRooms.runListings oracle pages batchSize fuel := by
  intro hmem
  rw [DeleteRooms.runListings] at hmem
  rcases listedPages_mem oracle pages batchSize fuel batchSize 0 (N + 1) hmem with
    h0 | ⟨-, rooms, hok, hcount⟩
  · exact Nat.succ_ne_zero N h0
  · have hlt := h rooms hok
    omega

/-- C8 witness: with batch size 2 and every page holding a single
zero-member room, page 0 yields one deletion, so page 1 is never fetched. -/
theorem C8_short_page_stops_witness :
    0 + 1 ∉ DeleteRooms.runListings DeleteRooms.exOracle DeleteRooms.exPages 2 5 :=
  C8_short_page_stops DeleteRooms.exOracle DeleteRooms.exPages 2 5 0 (fun rooms hr => by
    simp only [DeleteRooms.exPages, Except.ok.injEq] at hr
    subst hr
    decide)

/-- Adding a file to a bucket grows the total bucket population by one. -/
theorem bucketAdd_sum (acc : SortPhotos.Buckets) (key f : String) :
    SortPhotos.sumBuckets (SortPhotos.bucketAdd acc key f) =
      SortPhotos.sumBuckets acc + 1 := by
  induction acc with
  | nil => simp [SortPhotos.bucketAdd, SortPhotos.sumBuckets]
  | cons kv rest ih =>
    rcases kv with ⟨k, fs⟩
    by_cases hk : k = key
    · have hb : (k == key) = true := by simp [hk]
      simp [SortPhotos.bucketAdd, hb, SortPhotos.sumBuckets]
      omega
    · have hb : (k == key) = false := by simp [hk]
      simp only [SortPhotos.bucketAdd, hb, Bool.false_eq_true, if_false]
      simp [SortPhotos.sumBuckets] at ih ⊢
      omega

/-- Every listed name either matches the recognition pattern or does not. -/
theorem length_eq_match_split (files : List String) :
    files.length = files.countP (fun f => (SortPhotos.matchName f).isNone) +
      files.countP (fun f => (SortPhotos.matchName f).isSome) := by
  induction files with
  | nil => simp
  | cons f rest ih =>
    rcases hm : SortPhotos.matchName f with _ | g
    · simp [List.countP_cons, hm]
      omega
    · simp [List.countP_cons, hm]
      omega

/-- A completed scan loop accounts for every name: the bucket population
grows by the number of matching names, and the running count drops by the
number of non-matching ones. -/
theorem scanLoop_ok_spec (p : String) :
    ∀ (files : List String) (acc : SortPhotos.Buckets) (n : Nat)
      (b : SortPhotos.Buckets) (m : Nat),
      SortPhotos.scanLoop (some p) files acc n = .ok (b, m) →
      SortPhotos.sumBuckets b =
        SortPhotos.sumBuckets acc +
          files.countP (fun f => (SortPhotos.matchName f).isSome) ∧
      m = n - files.countP (fun f => (SortPhotos.matchName f).isNone) := by
  intro files
  induction files with
  | nil =>
    intro acc n b m h
    simp only [SortPhotos.scanLoop, Except.ok.injEq, Prod.mk.injEq] at h
    simp [← h.1, ← h.2]
  | cons f rest ih =>
    intro acc n b m h
    rcases hm : SortPhotos.matchName f with _ | g
    · simp only [SortPhotos.scanLoop, hm] at h
      have hr1 := (ih acc (n - 1) b m h).1
      have hr2 := (ih acc (n - 1) b m h).2
      constructor
      · rw [hr1]
        simp [List.countP_cons, hm]
      · simp only [List.countP_cons, hm, Option.isNone_none, if_true]
        omega
    · simp only [SortPhotos.scanLoop, hm] at h
      rcases hd : SortPhotos.strptimeYmd g with _ | date
      · rw [hd] at h
        simp at h
      · rw [hd] at h
        have hr1 := (ih _ n b m h).1
        have hr2 := (ih _ n b m h).2
        have hadd := bucketAdd_sum acc
          (SortPhotos.osPathJoin p (SortPhotos.strftimeYm date)) f
        constructor
        · simp only [List.countP_cons, hm, Option.isSome_some, if_true]
          omega
        · simp only [List.countP_cons, hm, Option.isNone_some]
          simpa using hr2

/-- When some listed name matches the pattern but its date group is not a
valid calendar date, the scan loop aborts the run with an uncaught error. -/
theorem scanLoop_error_of_bad (pathArg : Option String) :
    ∀ (files : List String) (acc : SortPhotos.Buckets) (n : Nat),
      (∃ f ∈ files, ∃ g, SortPhotos.matchName f = some g ∧
        SortPhotos.strptimeYmd g = none) →
      ∃ e, SortPhotos.scanLoop pathArg files acc n = .error e := by
  intro files
  induction files with
  | nil =>
    intro acc n h
    rcases h with ⟨f, hf, -⟩
    exact absurd hf (List.not_mem_nil f)
  | cons f0 rest ih =>
    intro acc n h
    rcases hm0 : SortPhotos.matchName f0 with _ | g0
    · have h' : ∃ f ∈ rest, ∃ g, SortPhotos.matchName f = some g ∧
          SortPhotos.strptimeYmd g = none := by
        rcases h with ⟨f, hf, g, hg, hbad⟩
        rcases List.mem_cons.mp hf with rfl | hf'
        · rw [hm0] at hg
          cases hg
        · exact ⟨f, hf', g, hg, hbad⟩
      rcases ih acc (n - 1) h' with ⟨e, he⟩
      refine ⟨e, ?_⟩
      simp only [SortPhotos.scanLoop, hm0]
      exact he
    · rcases hd0 : SortPhotos.strptimeYmd g0 with _ | date0
      · refine ⟨.valueError g0, ?_⟩
        simp only [SortPhotos.scanLoop, hm0, hd0]
      · have h' : ∃ f ∈ rest, ∃ g, SortPhotos.matchName f = some g ∧
            SortPhotos.strptimeYmd g = none := by
          rcases h with ⟨f, hf, g, hg, hbad⟩
          rcases List.mem_cons.mp hf with rfl | hf'
          · rw [hm0] at hg
            cases hg
            rw [hbad] at hd0
            cases hd0
          · exact ⟨f, hf', g, hg, hbad⟩
        rcases pathArg with _ | p
        · refine ⟨.typeError, ?_⟩
          simp only [SortPhotos.scanLoop, hm0, hd0]
        · rcases ih (SortPhotos.bucketAdd acc
              (SortPhotos.osPathJoin p (SortPhotos.strftimeYm date0)) f0) n h' with ⟨e, he⟩
          refine ⟨e, ?_⟩
          simp only [SortPhotos.scanLoop, hm0, hd0]
          exact he

/-- With `--path` omitted (a `None` path), the scan loop aborts the run as
soon as any listed name matches the pattern: with a valid date group the
path join raises `TypeError`, with an invalid one `strptime` raises
`ValueError`. -/
theorem scanLoop_none_error_of_match :
    ∀ (files : List String) (acc : SortPhotos.Buckets) (n : Nat),
      (∃ f ∈ files, (SortPhotos.matchName f).isSome = true) →
      ∃ e, SortPhotos.scanLoop none files acc n = .error e := by
  intro files
  induction files with
  | nil =>
    intro acc n h
    rcases h with ⟨f, hf, -⟩
    exact absurd hf (List.not_mem_nil f)
  | cons f0 rest ih =>
    intro acc n h
    rcases hm0 : SortPhotos.matchName f0 with _ | g0
    · have h' : ∃ f ∈ rest, (SortPhotos.matchName f).isSome = true := by
        rcases h with ⟨f, hf, hsome⟩
        rcases List.mem_cons.mp hf with rfl | hf'
        · rw [hm0] at hsome
          simp at hsome
        · exact ⟨f, hf', hsome⟩
      rcases ih acc (n - 1) h' with ⟨e, he⟩
      refine ⟨e, ?_⟩
      simp only [SortPhotos.scanLoop, hm0]
      exact he
    · rcases hd0 : SortPhotos.strptimeYmd g0 with _ | date0
      · refine ⟨.valueError g0, ?_⟩
        simp only [SortPhotos.scanLoop, hm0, hd0]
      · refine ⟨.typeError, ?_⟩
        simp only [SortPhotos.scanLoop, hm0, hd0]

/-- When no listed name matches the pattern, the scan loop completes with
the buckets untouched and the count decremented once per name. -/
theorem scanLoop_ok_of_nomatch (pathArg : Option String) :
    ∀ (files : List String) (acc : SortPhotos.Buckets) (n : Nat),
      (∀ f ∈ files, SortPhotos.matchName f = none) →
      SortPhotos.scanLoop pathArg files acc n = .ok (acc, n - files.length) := by
  intro files
  induction files with
  | nil =>
    intro acc n h
    simp [SortPhotos.scanLoop]
  | cons f0 rest ih =>
    intro acc n h
    have hm0 : SortPhotos.matchName f0 = none := h f0 (List.mem_cons_self f0 rest)
    simp only [SortPhotos.scanLoop, hm0]
    rw [ih acc (n - 1) (fun f hf => h f (List.mem_cons_of_mem f0 hf))]
    have hlen : n - 1 - rest.length = n - (f0 :: rest).length := by
      simp only [List.length_cons]
      omega
    rw [hlen]

/-- C6: for a scan that runs to completion (every matching name carries a
valid calendar date), the count printed as the number of files to move
equals the sum over all destination buckets of their member counts, and
equals the initial entry count minus the number of entries whose names did
not match the recognition pattern. -/
theorem C6_count_invariant (p : String) (files : List String)
    (b : SortPhotos.Buckets) (n : Nat)
    (h : SortPhotos.scan (some p) files = .ok (b, n)) :
    (SortPhotos.runOnFiles (some p) files).printedCount = some n ∧
    n = SortPhotos.sumBuckets b ∧
    n = files.length -
      files.countP (fun f => (SortPhotos.matchName f).isNone) := by
  have hs1 := (scanLoop_ok_spec p files [] files.length b n h).1
  have hs2 := (scanLoop_ok_spec p files [] files.length b n h).2
  have hsplit := length_eq_match_split files
  have h0 : SortPhotos.sumBuckets ([] : SortPhotos.Buckets) = 0 := rfl
  refine ⟨?_, ?_, hs2⟩
  · rw [SortPhotos.runOnFiles, h]
    rcases hmv : SortPhotos.movesOf (some p) b with e | ms <;> simp [hmv]
  · omega

/-- C6 witness: two listed names, one matching; the printed count is 1 and
both counts agree with the single bucket. -/
theorem C6_count_invariant_witness :
    (SortPhotos.runOnFiles (some "/photos")
      ["IMG_20230615_101500.jpg", "random.txt"]).printedCount = some 1 ∧
    1 = SortPhotos.sumBuckets [("/photos/2023/06", ["IMG_20230615_101500.jpg"])] ∧
    1 = (["IMG_20230615_101500.jpg", "random.txt"] : List String).length -
      (["IMG_20230615_101500.jpg", "random.txt"] : List String).countP
        (fun f => (SortPhotos.matchName f).isNone) :=
  C6_count_invariant "/photos" ["IMG_20230615_101500.jpg", "random.txt"]
    [("/photos/2023/06", ["IMG_20230615_101500.jpg"])] 1 rfl

/-- C9: the scan phase runs over every directory entry before any file is
moved, so when some recognized name carries an 8-digit group that is not a
valid calendar date, the run aborts during the scan: nothing is moved, the
count is never printed, and an uncaught failure is reported. -/
theorem C9_invalid_date_aborts (pathArg : Option String) (files : List String)
    (h : ∃ f ∈ files, ∃ g, SortPhotos.matchName f = some g ∧
      SortPhotos.strptimeYmd g = none) :
    (SortPhotos.runOnFiles pathArg files).moved = [] ∧
    (SortPhotos.runOnFiles pathArg files).printedCount = none ∧
    (SortPhotos.runOnFiles pathArg files).failure.isSome = true := by
  rcases scanLoop_error_of_bad pathArg files [] files.length h with ⟨e, he⟩
  have hsc : SortPhotos.scan pathArg files = .error e := he
  simp [SortPhotos.runOnFiles, hsc]

/-- C9 witness: the name IMG_20230230_120000.jpg matches the pattern but
February 30th is not a valid date; the run aborts with zero files moved. -/
theorem C9_invalid_date_aborts_witness :
    (SortPhotos.runOnFiles (some "/photos") ["IMG_20230230_120000.jpg"]).moved = [] ∧
    (SortPhotos.runOnFiles (some "/photos")
      ["IMG_20230230_120000.jpg"]).printedCount = none ∧
    (SortPhotos.runOnFiles (some "/photos")
      ["IMG_20230230_120000.jpg"]).failure.isSome = true :=
  C9_invalid_date_aborts (some "/photos") ["IMG_20230230_120000.jpg"]
    ⟨"IMG_20230230_120000.jpg", by decide, "20230230", by decide, by decide⟩

/-- C3 counterexample: the claim says a run with `--path` omitted fails at
the initial directory-listing step. With the current working directory
listable and holding one non-matching entry, the listing succeeds (CPython's
`os.listdir(None)` lists the cwd) and the run finishes without any failure
at all. -/
theorem C3_counterexample :
    (SortPhotos.run none
      { cwd := "/home/op", dirs := [("/home/op", ["random.txt"])] }).listed = true ∧
    (SortPhotos.run none
      { cwd := "/home/op", dirs := [("/home/op", ["random.txt"])] }).failure = none :=
  ⟨rfl, rfl⟩

/-- C3 (amended): when `--path` is omitted no local validation rejects the
missing argument, and the run does not fail at the directory-listing step:
`os.listdir(None)` lists the current working directory, so whenever the cwd
is listable the listing succeeds, no file is ever moved, and the run fails
(later, inside the scan, at `strptime` or at `os.path.join(None, ...)`)
exactly when some listed entry matches the recognition pattern. -/
theorem C3_omitted_path_lists_cwd (fs : SortPhotos.Fs) (entries : List String)
    (h : SortPhotos.lookupDir fs fs.cwd = some entries) :
    (SortPhotos.run none fs).listed = true ∧
    (SortPhotos.run none fs).moved = [] ∧
    ((SortPhotos.run none fs).failure.isSome = true ↔
      ∃ f ∈ entries, (SortPhotos.matchName f).isSome = true) := by
  have hls : SortPhotos.listdir none fs = .ok entries := by
    simp [SortPhotos.listdir, h]
  have hrun : SortPhotos.run none fs = SortPhotos.runOnFiles none entries := by
    rw [SortPhotos.run, hls]
  rw [hrun]
  by_cases hm : ∃ f ∈ entries, (SortPhotos.matchName f).isSome = true
  · rcases scanLoop_none_error_of_match entries [] entries.length hm with ⟨e, he⟩
    have hsc : SortPhotos.scan none entries = .error e := he
    simp only [SortPhotos.runOnFiles, hsc]
    refine ⟨trivial, trivial, ?_⟩
    simp only [Option.isSome_some]
    exact iff_of_true trivial hm
  · have hall : ∀ f ∈ entries, SortPhotos.matchName f = none := by
      intro f hf
      rcases hg : SortPhotos.matchName f with _ | g
      · rfl
      · exact absurd ⟨f, hf, by simp [hg]⟩ hm
    have hsc : SortPhotos.scan none entries =
        .ok ([], entries.length - entries.length) :=
      scanLoop_ok_of_nomatch none entries [] entries.length hall
    simp only [SortPhotos.runOnFiles, hsc, SortPhotos.movesOf]
    refine ⟨trivial, trivial, ?_⟩
    simp only [Option.isSome_none]
    exact iff_of_false (by simp) hm

/-- C3 witness: a listable cwd with a single non-matching entry; the
listing succeeds, nothing is moved, and no failure occurs. -/
theorem C3_omitted_path_lists_cwd_witness :
    (SortPhotos.run none
      { cwd := "/home/op", dirs := [("/home/op", ["random.txt"])] }).listed = true ∧
    (SortPhotos.run none
      { cwd := "/home/op", dirs := [("/home/op", ["random.txt"])] }).moved = [] ∧
    ((SortPhotos.run none
      { cwd := "/home/op", dirs := [("/home/op", ["random.txt"])] }).failure.isSome = true ↔
      ∃ f ∈ ["random.txt"], (SortPhotos.matchName f).isSome = true) :=
  C3_omitted_path_lists_cwd
    { cwd := "/home/op", dirs := [("/home/op", ["random.txt"])] } ["random.txt"] rfl
